import Mathlib

/-!
Shallow embedding of the esp32_rpm_trigger firmware core (src/src/obd_data.c,
src/src/elm327.c, src/src/bluetooth.c, src/src/gpio_control.c) and proofs
about it.  C machine integers are modelled as `Nat` with explicit `% 2 ^ w`
wherever the source can overflow; fixed-size C buffers and strings become
`List Char` / `String`; the FreeRTOS tasks' loop bodies become pure step
functions over explicit state records.
-/

set_option maxRecDepth 4000

/-! ## Constants (src/src/obd_data.c lines 14-20, src/include/elm327.h line 15) -/

def MIN_COMMAND_DELAY_MS : Nat := 175

def MAX_COMMAND_DELAY_MS : Nat := 500

def DELAY_INCREASE_MS : Nat := 50

def DELAY_DECREASE_MS : Nat := 5

def MAX_ERRORS_AT_MAX_DELAY : Nat := 10

def RX_BUFFER_SIZE : Nat := 384

/-! ## PID Decoder (src/src/obd_data.c, `parse_multi_pid_line`, lines 74-150) -/

/-- Value of one hexadecimal digit, `none` for a non-hex character
(the stopping condition of C `strtol` with base 16). -/
def hexDigitVal (c : Char) : Option Nat :=
  if '0' ≤ c ∧ c ≤ '9' then some (c.toNat - '0'.toNat)
  else if 'a' ≤ c ∧ c ≤ 'f' then some (c.toNat - 'a'.toNat + 10)
  else if 'A' ≤ c ∧ c ≤ 'F' then some (c.toNat - 'A'.toNat + 10)
  else none

/-- Accumulate leading hex digits, stopping at the first non-digit,
exactly as `strtol(_, NULL, 16)` consumes its input. -/
def hexNatOfChars : List Char → Nat → Nat
  | [], acc => acc
  | c :: cs, acc =>
    match hexDigitVal c with
    | some d => hexNatOfChars cs (acc * 16 + d)
    | none => acc

/-- Digit part of `strtol(_, NULL, 16)` after the optional sign: an optional
`0x`/`0X` prefix followed by hex digits. -/
def hexAfterBase : List Char → Nat
  | '0' :: 'x' :: rest => hexNatOfChars rest 0
  | '0' :: 'X' :: rest => hexNatOfChars rest 0
  | s => hexNatOfChars s 0

/-- C `strtol(s, NULL, 16)`: optional sign, optional `0x` prefix, hex digits.
Leading whitespace is not modelled: the tokens this is applied to come from
splitting a line at spaces, so they never contain whitespace. -/
def strtol16 (s : List Char) : Int :=
  match s with
  | '-' :: rest => -(Int.ofNat (hexAfterBase rest))
  | '+' :: rest => Int.ofNat (hexAfterBase rest)
  | rest => Int.ofNat (hexAfterBase rest)

/-- Macro `HEXBYTE_TO_INT` (obd_data.c line 22): `(uint8_t)strtol(ptr, NULL, 16)`,
i.e. the `strtol` value reduced modulo `2 ^ 8`. -/
def HEXBYTE_TO_INT (s : String) : Nat := ((strtol16 s.data).emod 256).toNat

/-- Helper of `strtokSpaces`: `cur` is the (reversed) token being accumulated. -/
def strtokAux : List Char → List Char → List String
  | [], cur => if cur = [] then [] else [String.mk cur.reverse]
  | c :: cs, cur =>
    if c = ' ' then
      if cur = [] then strtokAux cs []
      else String.mk cur.reverse :: strtokAux cs []
    else strtokAux cs (c :: cur)

/-- C `strtok(line, " ")` token stream: maximal runs of non-space characters
(consecutive delimiters yield no empty tokens). -/
def strtokSpaces (s : List Char) : List String :=
  strtokAux s []

/-- C `strstr(line, "41 ")` (obd_data.c line 80): the suffix of the line starting
at the first occurrence of the Mode-01 acknowledgment marker, if any. -/
def strstr41 : List Char → Option (List Char)
  | [] => none
  | c :: cs =>
    if List.isPrefixOf ['4', '1', ' '] (c :: cs) then some (c :: cs)
    else strstr41 cs

/-- Structure `vehicle_data_t` (src/include/obd_data.h).  `rpm` is `uint32_t`,
`throttle_position` and `vehicle_speed` are `uint8_t`; every value the decoder
stores fits those ranges (raw RPM / 4 < 2 ^ 14, throttle ≤ 100, speed < 2 ^ 8),
so plain `Nat` fields represent them exactly. -/
structure vehicle_data_t where
  rpm : Nat
  throttle_position : Nat
  vehicle_speed : Nat
deriving Repr, DecidableEq

/-- Loop of `parse_multi_pid_line` (obd_data.c lines 98-144): repeatedly take a
PID token, then its data byte(s), updating the snapshot.  The `Bool` accumulator
is the C `data_parsed` flag.  A missing data byte exits the loop (the C `break`
inside `case 0x0C` only leaves the `switch`, but the following `strtok` then
returns `NULL` and ends the loop the same way). -/
def parsePidPairs : List String → vehicle_data_t → Bool → vehicle_data_t × Bool
  | [], v, p => (v, p)
  | tok :: rest, v, p =>
    if tok = "55" then (v, p)
    else
      match rest with
      | [] => (v, p)
      | data1 :: rest1 =>
        if HEXBYTE_TO_INT tok = 0x0C then
          match rest1 with
          | [] => (v, p)
          | data2 :: rest2 =>
            let raw := (HEXBYTE_TO_INT data1) <<< 8 ||| HEXBYTE_TO_INT data2
            parsePidPairs rest2 { v with rpm := raw / 4 } true
        else if HEXBYTE_TO_INT tok = 0x0D then
          parsePidPairs rest1 { v with vehicle_speed := HEXBYTE_TO_INT data1 } true
        else if HEXBYTE_TO_INT tok = 0x11 then
          parsePidPairs rest1
            { v with throttle_position := HEXBYTE_TO_INT data1 * 100 / 255 } true
        else parsePidPairs rest1 v p

/-- Function `parse_multi_pid_line` (obd_data.c lines 74-150) acting on the
vehicle snapshot.  Returns the updated snapshot and the `data_parsed` flag
(which the C code uses to call `reset_ecu_error_counters`). -/
def parse_multi_pid_line (line : String) (v : vehicle_data_t) :
    vehicle_data_t × Bool :=
  match strstr41 line.data with
  | none => (v, false)
  | some suffix =>
    match strtokSpaces suffix with
    | [] => (v, false)
    | tok :: rest => if tok = "41" then parsePidPairs rest v false else (v, false)

example :
    (parse_multi_pid_line "41 0C 2E E0" ⟨0, 0, 0⟩).1.rpm = 3000 := by decide

example :
    (parse_multi_pid_line "0: 41 0C 1A F8 41 0D 3C 41 11 5A" ⟨0, 0, 0⟩).1
      = ⟨1726, 35, 0⟩ := by decide

/-- Presentation lemma for the RPM raw value: `(hi << 8) | lo` over `uint8_t`
operands equals `hi * 256 + lo`. -/
lemma mul_two_pow_lor_eq_add : ∀ (n x y : Nat), y < 2 ^ n → x * 2 ^ n ||| y = x * 2 ^ n + y := by
  intro n
  induction n with
  | zero =>
    intro x y hy
    have : y = 0 := by omega
    subst this
    simp
  | succ n ih =>
    intro x y hy
    have hxa : x * 2 ^ (n + 1) = x * 2 ^ n * 2 := by ring
    rw [hxa]
    have hdiv : (x * 2 ^ n * 2 ||| y) / 2 = x * 2 ^ n + y / 2 := by
      rw [Nat.or_div_two, Nat.mul_div_cancel _ (by norm_num)]
      exact ih x (y / 2) (by rw [pow_succ] at hy; omega)
    have hmodiff := Nat.or_mod_two_eq_one (a := x * 2 ^ n * 2) (b := y)
    have heven : x * 2 ^ n * 2 % 2 = 0 := Nat.mul_mod_left _ _
    have hmod : (x * 2 ^ n * 2 ||| y) % 2 = y % 2 := by
      rcases Nat.mod_two_eq_zero_or_one y with hy2 | hy2
      · rw [hy2]
        have : ¬ (x * 2 ^ n * 2 ||| y) % 2 = 1 := by
          intro hcon
          rcases hmodiff.mp hcon with hc | hc <;> omega
        omega
      · rw [hy2]
        exact hmodiff.mpr (Or.inr hy2)
    omega

/-- Shift-and-or form used at obd_data.c line 123: for byte operands the
16-bit raw RPM value `(hi << 8) | lo` is `hi * 256 + lo`. -/
lemma shiftLeft8_lor_eq (x y : Nat) (hy : y < 256) : x <<< 8 ||| y = x * 256 + y := by
  have h := mul_two_pow_lor_eq_add 8 x y (by norm_num [hy])
  simpa [Nat.shiftLeft_eq] using h

/-- Range of `HEXBYTE_TO_INT`: a `uint8_t` cast always lands below 256. -/
lemma HEXBYTE_TO_INT_lt (s : String) : HEXBYTE_TO_INT s < 256 := by
  unfold HEXBYTE_TO_INT
  have h1 : (0 : Int) ≤ (strtol16 s.data).emod 256 := Int.emod_nonneg _ (by norm_num)
  have h2 : (strtol16 s.data).emod 256 < 256 := Int.emod_lt_of_pos _ (by norm_num)
  omega

/-- C1: for every Mode-01 response line containing the acknowledgment marker,
the PID Decoder yields `rpm = (high_byte * 256 + low_byte) / 4` for PID `0x0C`,
`speed_kmh = data_byte` for PID `0x0D`, and `throttle_pct = data_byte * 100 / 255`
for PID `0x11`; in particular bytes `2E E0` for PID `0x0C` give `rpm = 3000`,
throttle byte `FF` gives `100`, and speed byte `3C` gives `60`. -/
theorem claim1_pid_decoder :
    (∀ (rest : List String) (v : vehicle_data_t) (p : Bool) (h l : String),
        parsePidPairs ("0C" :: h :: l :: rest) v p
          = parsePidPairs rest
              { v with rpm := (HEXBYTE_TO_INT h * 256 + HEXBYTE_TO_INT l) / 4 } true) ∧
    (∀ (rest : List String) (v : vehicle_data_t) (p : Bool) (d : String),
        parsePidPairs ("0D" :: d :: rest) v p
          = parsePidPairs rest { v with vehicle_speed := HEXBYTE_TO_INT d } true) ∧
    (∀ (rest : List String) (v : vehicle_data_t) (p : Bool) (d : String),
        parsePidPairs ("11" :: d :: rest) v p
          = parsePidPairs rest
              { v with throttle_position := HEXBYTE_TO_INT d * 100 / 255 } true) ∧
    (parse_multi_pid_line "41 0C 2E E0" ⟨0, 0, 0⟩).1.rpm = 3000 ∧
    (parse_multi_pid_line "41 11 FF" ⟨0, 0, 0⟩).1.throttle_position = 100 ∧
    (parse_multi_pid_line "41 0D 3C" ⟨0, 0, 0⟩).1.vehicle_speed = 60 := by
  refine ⟨?_, ?_, ?_, by decide, by decide, by decide⟩
  · intro rest v p h l
    simp only [parsePidPairs]
    rw [if_neg (by decide), if_pos (by decide)]
    rw [shiftLeft8_lor_eq _ _ (HEXBYTE_TO_INT_lt l)]
  · intro rest v p d
    conv_lhs => rw [parsePidPairs.eq_def]
    dsimp only
    rw [if_neg (by decide), if_neg (by decide), if_pos (by decide)]
  · intro rest v p d
    conv_lhs => rw [parsePidPairs.eq_def]
    dsimp only
    rw [if_neg (by decide), if_neg (by decide), if_neg (by decide), if_pos (by decide)]

/-! ## Adaptive polling (src/src/obd_data.c, `send_obd_command_adaptive`,
lines 152-279) and ECU reset (src/src/elm327.c, `reset_ecu_connection`,
lines 383-395) -/

/-- Outcome of one command round-trip, as observed by
`send_obd_command_adaptive`: the send itself failed (line 170), a telemetry
timestamp advanced (`data_updated`), a response arrived without a data update
(`NO DATA` / `CAN ERROR` style), or nothing arrived within
`RESPONSE_TIMEOUT_MS`. -/
inductive ObdOutcome where
  | sendFail
  | success
  | errorResponse
  | respTimeout
deriving DecidableEq, Repr

/-- Adaptive-polling controller variables of `obd_task`:
`current_delay_ms` is `uint16_t` (never exceeds 550 along the updates below,
so `Nat` is exact), `errors_at_max_delay` is `uint8_t` (increment taken
mod `2 ^ 8`). -/
structure PollingState where
  current_delay_ms : Nat
  errors_at_max_delay : Nat
deriving Repr, DecidableEq

/-- Result of one `send_obd_command_adaptive` call: the updated controller
variables, whether `reset_ecu_connection` was invoked (declaring the ECU
disconnected), and the C return value. -/
structure PollingStepResult where
  st : PollingState
  ecuLost : Bool
  ret : Nat
deriving Repr, DecidableEq

/-- Failure branch of `send_obd_command_adaptive` (obd_data.c lines 230-253
and the identical timeout branch, lines 255-277): below the ceiling the delay
grows by `DELAY_INCREASE_MS` and is clamped to `MAX_COMMAND_DELAY_MS`; at the
ceiling the `uint8_t` error counter increments and, on reaching
`MAX_ERRORS_AT_MAX_DELAY`, `reset_ecu_connection` fires. -/
def adaptiveFail (s : PollingState) : PollingStepResult :=
  if s.current_delay_ms < MAX_COMMAND_DELAY_MS then
    { st := ⟨if MAX_COMMAND_DELAY_MS < s.current_delay_ms + DELAY_INCREASE_MS
               then MAX_COMMAND_DELAY_MS
               else s.current_delay_ms + DELAY_INCREASE_MS,
             s.errors_at_max_delay⟩,
      ecuLost := false, ret := 0 }
  else if MAX_ERRORS_AT_MAX_DELAY ≤ (s.errors_at_max_delay + 1) % 256 then
    { st := ⟨s.current_delay_ms, (s.errors_at_max_delay + 1) % 256⟩,
      ecuLost := true, ret := 0 }
  else
    { st := ⟨s.current_delay_ms, (s.errors_at_max_delay + 1) % 256⟩,
      ecuLost := false, ret := 0 }

/-- Delay/error update of `send_obd_command_adaptive` (obd_data.c lines
216-278), as a pure step on the controller variables, indexed by the observed
round-trip outcome.  A failed send (line 170-173) returns 0 without touching
either variable. -/
def send_obd_command_adaptive (s : PollingState) (o : ObdOutcome) :
    PollingStepResult :=
  match o with
  | .sendFail => { st := s, ecuLost := false, ret := 0 }
  | .success =>
    { st := ⟨if MIN_COMMAND_DELAY_MS < s.current_delay_ms then
               if s.current_delay_ms - DELAY_DECREASE_MS < MIN_COMMAND_DELAY_MS
                 then MIN_COMMAND_DELAY_MS
                 else s.current_delay_ms - DELAY_DECREASE_MS
             else s.current_delay_ms, 0⟩,
      ecuLost := false, ret := 1 }
  | .errorResponse => adaptiveFail s
  | .respTimeout => adaptiveFail s

/-- Fold of `send_obd_command_adaptive` over a sequence of outcomes. -/
def runAdaptive (s : PollingState) : List ObdOutcome → PollingState
  | [] => s
  | o :: os => runAdaptive (send_obd_command_adaptive s o).st os

/-- ECU error counters owned by src/src/elm327.c (lines 23-24 and 38-40). -/
structure EcuCounters where
  ecu_connected : Bool
  consecutive_ecu_failures : Nat
  unable_to_connect_count : Nat
  can_error_count : Nat
deriving Repr, DecidableEq

/-- Function `reset_ecu_connection` (elm327.c lines 383-395): declares the ECU
disconnected and zeroes the legacy error counters (the reconnection task it
spawns is outside this state). -/
def reset_ecu_connection (_e : EcuCounters) : EcuCounters :=
  { ecu_connected := false, consecutive_ecu_failures := 0,
    unable_to_connect_count := 0, can_error_count := 0 }

/-- Delay bound invariant: one adaptive step keeps the delay inside
`[MIN_COMMAND_DELAY_MS, MAX_COMMAND_DELAY_MS]`. -/
lemma adaptive_step_delay_bounds (s : PollingState) (o : ObdOutcome)
    (h1 : MIN_COMMAND_DELAY_MS ≤ s.current_delay_ms)
    (h2 : s.current_delay_ms ≤ MAX_COMMAND_DELAY_MS) :
    MIN_COMMAND_DELAY_MS ≤ (send_obd_command_adaptive s o).st.current_delay_ms ∧
      (send_obd_command_adaptive s o).st.current_delay_ms ≤ MAX_COMMAND_DELAY_MS := by
  have hmin : MIN_COMMAND_DELAY_MS = 175 := rfl
  have hmax : MAX_COMMAND_DELAY_MS = 500 := rfl
  cases o <;>
    simp only [send_obd_command_adaptive, adaptiveFail, MIN_COMMAND_DELAY_MS,
      MAX_COMMAND_DELAY_MS, DELAY_INCREASE_MS, DELAY_DECREASE_MS,
      MAX_ERRORS_AT_MAX_DELAY] at * <;>
    first
      | omega
      | (split_ifs <;> simp_all) <;> omega

/-- C2: for every sequence of success, error-response and timeout outcomes
(and failed sends), `current_delay` never leaves
`[MIN_COMMAND_DELAY_MS, MAX_COMMAND_DELAY_MS]` = [175, 500], assuming it
starts inside that interval. -/
theorem claim2_delay_bounded (s : PollingState) (os : List ObdOutcome)
    (h1 : MIN_COMMAND_DELAY_MS ≤ s.current_delay_ms)
    (h2 : s.current_delay_ms ≤ MAX_COMMAND_DELAY_MS) :
    MIN_COMMAND_DELAY_MS ≤ (runAdaptive s os).current_delay_ms ∧
      (runAdaptive s os).current_delay_ms ≤ MAX_COMMAND_DELAY_MS := by
  induction os generalizing s with
  | nil => exact ⟨h1, h2⟩
  | cons o os ih =>
    have h := adaptive_step_delay_bounds s o h1 h2
    simp only [runAdaptive]
    exact ih _ h.1 h.2

/-- Witness for `claim2_delay_bounded` at a concrete state and outcome list. -/
theorem claim2_delay_bounded_witness :
    MIN_COMMAND_DELAY_MS ≤
        (runAdaptive ⟨175, 0⟩
          [.respTimeout, .success, .errorResponse, .sendFail]).current_delay_ms ∧
      (runAdaptive ⟨175, 0⟩
          [.respTimeout, .success, .errorResponse, .sendFail]).current_delay_ms ≤
        MAX_COMMAND_DELAY_MS :=
  claim2_delay_bounded ⟨175, 0⟩
    [.respTimeout, .success, .errorResponse, .sendFail] (by decide) (by decide)

/-- Whether `reset_ecu_connection` fires at any point while folding
`send_obd_command_adaptive` over a list of outcomes. -/
def anyLost : PollingState → List ObdOutcome → Bool
  | _, [] => false
  | s, o :: os =>
    (send_obd_command_adaptive s o).ecuLost ||
      anyLost (send_obd_command_adaptive s o).st os

/-- Below the threshold, a failure step neither fires `reset_ecu_connection`
nor pushes the error counter past `old + 1`. -/
lemma adaptiveFail_below (s : PollingState)
    (h : s.errors_at_max_delay + 1 < MAX_ERRORS_AT_MAX_DELAY) :
    (adaptiveFail s).ecuLost = false ∧
      (adaptiveFail s).st.errors_at_max_delay ≤ s.errors_at_max_delay + 1 := by
  have hlt : (s.errors_at_max_delay + 1) % 256 < MAX_ERRORS_AT_MAX_DELAY := by
    have := Nat.mod_le (s.errors_at_max_delay + 1) 256
    omega
  unfold adaptiveFail
  split_ifs with hd hc he
  · exact ⟨rfl, Nat.le_succ _⟩
  · exact ⟨rfl, Nat.le_succ _⟩
  · exact absurd he (by omega)
  · exact ⟨rfl, Nat.mod_le _ _⟩

/-- Branch analysis of the ceiling-failure path: `reset_ecu_connection` fires
exactly when the delay is already at the ceiling and the incremented `uint8_t`
error counter reaches the threshold. -/
lemma adaptiveFail_lost_iff (s : PollingState) :
    (adaptiveFail s).ecuLost = true ↔
      (MAX_COMMAND_DELAY_MS ≤ s.current_delay_ms ∧
        MAX_ERRORS_AT_MAX_DELAY ≤ (s.errors_at_max_delay + 1) % 256) := by
  unfold adaptiveFail
  split_ifs with hd hc
  all_goals
    first
      | exact iff_of_true rfl ⟨by omega, by assumption⟩
      | exact iff_of_false (by simp) (by rintro ⟨hge1, hge2⟩; omega)

/-- C3: `reset_ecu_connection` is invoked by the adaptive scheduler exactly
when a soft failure (error response or timeout) happens while the delay is at
its ceiling and the consecutive-ceiling-error counter reaches
`MAX_ERRORS_AT_MAX_DELAY` = 10; any success resets that counter to zero; fewer
than 10 consecutive failures starting from a zero counter never declare the
ECU lost; and `reset_ecu_connection` itself clears `ecu_connected`. -/
theorem claim3_ecu_lost_iff :
    (∀ (s : PollingState) (o : ObdOutcome),
        (send_obd_command_adaptive s o).ecuLost = true ↔
          ((o = .errorResponse ∨ o = .respTimeout) ∧
            MAX_COMMAND_DELAY_MS ≤ s.current_delay_ms ∧
            MAX_ERRORS_AT_MAX_DELAY ≤ (s.errors_at_max_delay + 1) % 256)) ∧
    (∀ s : PollingState,
        (send_obd_command_adaptive s .success).st.errors_at_max_delay = 0) ∧
    (∀ (s : PollingState) (os : List ObdOutcome),
        (∀ o ∈ os, o = .errorResponse ∨ o = .respTimeout) →
        s.errors_at_max_delay + os.length < MAX_ERRORS_AT_MAX_DELAY →
        anyLost s os = false) ∧
    (∀ e : EcuCounters, (reset_ecu_connection e).ecu_connected = false) := by
  refine ⟨?_, ?_, ?_, fun _ => rfl⟩
  · intro s o
    cases o with
    | sendFail => simp [send_obd_command_adaptive]
    | success => simp [send_obd_command_adaptive]
    | errorResponse =>
      simpa [send_obd_command_adaptive] using adaptiveFail_lost_iff s
    | respTimeout =>
      simpa [send_obd_command_adaptive] using adaptiveFail_lost_iff s
  · intro s
    simp [send_obd_command_adaptive]
  · intro s os
    induction os generalizing s with
    | nil => intro _ _; rfl
    | cons o os ih =>
      intro hall hlen
      have ho := hall o (by simp)
      have hbelow : s.errors_at_max_delay + 1 < MAX_ERRORS_AT_MAX_DELAY := by
        simp only [List.length_cons] at hlen
        omega
      have hstep : (send_obd_command_adaptive s o).ecuLost = false ∧
          (send_obd_command_adaptive s o).st.errors_at_max_delay ≤
            s.errors_at_max_delay + 1 := by
        rcases ho with h | h <;> subst h <;>
          exact adaptiveFail_below s hbelow
      simp only [anyLost, hstep.1, Bool.false_or]
      refine ih _ (fun o ho2 => hall o (by simp [ho2])) ?_
      simp only [List.length_cons] at hlen
      have := hstep.2
      omega

/-- Witness for `claim3_ecu_lost_iff`: instantiate each quantified conjunct
at concrete inputs, discharging the hypotheses there. -/
theorem claim3_ecu_lost_iff_witness :
    ((send_obd_command_adaptive ⟨500, 9⟩ .errorResponse).ecuLost = true ↔
        ((ObdOutcome.errorResponse = .errorResponse ∨
            ObdOutcome.errorResponse = .respTimeout) ∧
          MAX_COMMAND_DELAY_MS ≤ 500 ∧
          MAX_ERRORS_AT_MAX_DELAY ≤ (9 + 1) % 256)) ∧
      (send_obd_command_adaptive ⟨500, 7⟩ .success).st.errors_at_max_delay = 0 ∧
      anyLost ⟨500, 0⟩
          [.errorResponse, .respTimeout, .errorResponse, .errorResponse] = false ∧
      (reset_ecu_connection ⟨true, 3, 2, 1⟩).ecu_connected = false :=
  ⟨claim3_ecu_lost_iff.1 ⟨500, 9⟩ .errorResponse,
    claim3_ecu_lost_iff.2.1 ⟨500, 7⟩,
    claim3_ecu_lost_iff.2.2.1 ⟨500, 0⟩
      [.errorResponse, .respTimeout, .errorResponse, .errorResponse]
      (by decide) (by decide),
    claim3_ecu_lost_iff.2.2.2 ⟨true, 3, 2, 1⟩⟩

/-! ## Connection Manager GAP events (src/src/bluetooth.c, `gap_callback`,
lines 64-156) -/

/-- Target device address `target_elm327_addr` (bluetooth.c line 25). -/
def target_elm327_addr : List Nat := [0x66, 0x1E, 0x87, 0x02, 0x64, 0xC1]

/-- Scan/connect flags and pending-connection variables owned by
src/src/bluetooth.c (lines 18-19, 47-49). -/
structure GapState where
  is_scanning : Bool
  is_connecting : Bool
  is_connected : Bool
  connect_pending : Bool
  pending_bda : List Nat
  pending_addr_type : Nat
deriving Repr, DecidableEq

/-- GAP events handled by `gap_callback`.  `scanStopComplete` carries the
platform's accept/reject of the `esp_ble_gattc_open` call that the handler may
issue (bluetooth.c line 137: on rejection `is_connecting` is cleared). -/
inductive GapEvent where
  | scanResult (bda : List Nat) (addrType : Nat)
  | scanStartComplete (ok : Bool)
  | scanStopComplete (openOk : Bool)
deriving DecidableEq, Repr

/-- Platform calls issued by `gap_callback`. -/
inductive GapAction where
  | stopScanning
  | connectRequest (bda : List Nat) (addrType : Nat)
  | startScanTimeoutTask
  | restartScanTask
deriving DecidableEq, Repr

/-- Function `gap_callback` (bluetooth.c lines 64-156) as a step function:
given the current flags and one GAP event, it returns the new flags and the
list of platform calls made.  A matching advertisement (with no attempt in
flight) stores the candidate and stops the scan (lines 81-96); the connect
request is issued only inside the `SCAN_STOP_COMPLETE` handler (lines
116-150). -/
def gap_callback (s : GapState) : GapEvent → GapState × List GapAction
  | .scanResult bda atype =>
    if bda = target_elm327_addr then
      if s.is_connecting || s.connect_pending then (s, [])
      else
        ({ s with connect_pending := true, pending_bda := bda,
                  pending_addr_type := atype },
          [.stopScanning])
    else (s, [])
  | .scanStartComplete ok =>
    if ok then ({ s with is_scanning := true }, [.startScanTimeoutTask])
    else (s, [])
  | .scanStopComplete openOk =>
    if s.connect_pending then
      ({ s with is_scanning := false, connect_pending := false,
                is_connecting := openOk },
        [.connectRequest s.pending_bda s.pending_addr_type])
    else if !s.is_connecting && !s.is_connected then
      ({ s with is_scanning := false }, [.restartScanTask])
    else ({ s with is_scanning := false }, [])

/-- C4: a GATT connect request is issued by `gap_callback` only while handling
a scan-stopped confirmation event, at which point the scan flag is already
cleared; a matching advertisement (with no attempt in flight) only stores the
candidate address and stops the scan — it never connects directly. -/
theorem claim4_connect_only_after_scan_stop :
    (∀ (s : GapState) (e : GapEvent) (bda : List Nat) (atype : Nat),
        GapAction.connectRequest bda atype ∈ (gap_callback s e).2 →
          (∃ openOk, e = .scanStopComplete openOk) ∧
            (gap_callback s e).1.is_scanning = false) ∧
    (∀ (s : GapState) (atype : Nat),
        s.is_connecting = false → s.connect_pending = false →
          gap_callback s (.scanResult target_elm327_addr atype)
            = ({ s with connect_pending := true,
                        pending_bda := target_elm327_addr,
                        pending_addr_type := atype },
                [.stopScanning])) := by
  constructor
  · intro s e bda atype hmem
    cases e with
    | scanResult b a =>
      refine absurd hmem ?_
      simp only [gap_callback]
      split_ifs <;> simp
    | scanStartComplete ok =>
      refine absurd hmem ?_
      simp only [gap_callback]
      split_ifs <;> simp
    | scanStopComplete openOk =>
      refine ⟨⟨openOk, rfl⟩, ?_⟩
      simp only [gap_callback]
      split_ifs <;> rfl
  · intro s atype h1 h2
    simp [gap_callback, h1, h2]

/-- Witness for `claim4_connect_only_after_scan_stop` at concrete states: a
pending candidate plus a scan-stop event does produce a connect request, and a
fresh matching advertisement stores and stops. -/
theorem claim4_connect_only_after_scan_stop_witness :
    ((∃ openOk, GapEvent.scanStopComplete true = .scanStopComplete openOk) ∧
        (gap_callback ⟨true, false, false, true, target_elm327_addr, 0⟩
            (.scanStopComplete true)).1.is_scanning = false) ∧
      gap_callback ⟨true, false, false, false, [], 0⟩
          (.scanResult target_elm327_addr 1)
        = ({ is_scanning := true, is_connecting := false, is_connected := false,
             connect_pending := true, pending_bda := target_elm327_addr,
             pending_addr_type := 1 }, [.stopScanning]) :=
  ⟨claim4_connect_only_after_scan_stop.1
      ⟨true, false, false, true, target_elm327_addr, 0⟩
      (.scanStopComplete true) target_elm327_addr 0 (by decide),
    claim4_connect_only_after_scan_stop.2
      ⟨true, false, false, false, [], 0⟩ 1 rfl rfl⟩

/-! ## Line framer (src/src/elm327.c, `process_received_data`, lines 211-258) -/

/-- Printable-ASCII test of elm327.c line 247 (`c >= 32 && c <= 126`). -/
def isPrintableAscii (c : Char) : Bool := 32 ≤ c.toNat && c.toNat ≤ 126

/-- Byte loop of `process_received_data` (elm327.c lines 219-252): returns the
completed lines handed to `elm327_handle_response` and the final line-buffer
content.  The loop guard `rx_buffer_len < RX_BUFFER_SIZE - 1` is re-checked per
byte; once the buffer is full the remaining bytes of the packet are dropped.
A carriage return or prompt flushes a non-empty buffer; a line feed and
non-printable bytes are dropped. -/
def processBytes : List Char → List Char → List (List Char) × List Char
  | [], buf => ([], buf)
  | c :: rest, buf =>
    if buf.length < RX_BUFFER_SIZE - 1 then
      if c = '\r' then
        if 0 < buf.length then
          ((processBytes rest []).1.cons buf, (processBytes rest []).2)
        else processBytes rest buf
      else if c = '\n' then processBytes rest buf
      else if c = '>' then
        if 0 < buf.length then
          ((processBytes rest []).1.cons buf, (processBytes rest []).2)
        else processBytes rest buf
      else if isPrintableAscii c then processBytes rest (buf ++ [c])
      else processBytes rest buf
    else ([], buf)

/-- Number of terminator/prompt characters (CR, LF, `>`) in a byte stream. -/
def terminatorCount (data : List Char) : Nat :=
  (data.filter (fun c => c == '\r' || c == '\n' || c == '>')).length

/-- C5 counterexample: a lone carriage return arriving on an empty buffer is
one terminator character but flushes no line, so the emitted-line count does
not equal the terminator count. -/
theorem claim5_counterexample :
    (processBytes ['\r'] []).1.length = 0 ∧ terminatorCount ['\r'] = 1 := by
  decide

lemma processBytes_full (c : Char) (rest buf : List Char)
    (h : ¬ buf.length < RX_BUFFER_SIZE - 1) :
    processBytes (c :: rest) buf = ([], buf) := by
  simp only [processBytes, if_neg h]

lemma processBytes_cr (rest buf : List Char) (h : buf.length < RX_BUFFER_SIZE - 1) :
    processBytes ('\r' :: rest) buf =
      if 0 < buf.length
        then ((processBytes rest []).1.cons buf, (processBytes rest []).2)
        else processBytes rest buf := by
  simp only [processBytes, if_pos h]
  rw [if_pos trivial]

lemma processBytes_lf (rest buf : List Char) (h : buf.length < RX_BUFFER_SIZE - 1) :
    processBytes ('\n' :: rest) buf = processBytes rest buf := by
  simp only [processBytes, if_pos h]
  rw [if_neg (by decide), if_pos trivial]

lemma processBytes_gt (rest buf : List Char) (h : buf.length < RX_BUFFER_SIZE - 1) :
    processBytes ('>' :: rest) buf =
      if 0 < buf.length
        then ((processBytes rest []).1.cons buf, (processBytes rest []).2)
        else processBytes rest buf := by
  simp only [processBytes, if_pos h]
  rw [if_neg (by decide), if_neg (by decide), if_pos trivial]

lemma processBytes_other (c : Char) (rest buf : List Char)
    (h : buf.length < RX_BUFFER_SIZE - 1)
    (hcr : c ≠ '\r') (hlf : c ≠ '\n') (hgt : c ≠ '>') :
    processBytes (c :: rest) buf =
      if isPrintableAscii c then processBytes rest (buf ++ [c])
      else processBytes rest buf := by
  simp only [processBytes, if_pos h]
  rw [if_neg hcr, if_neg hlf, if_neg hgt]

lemma terminatorCount_mono (c : Char) (rest : List Char) :
    terminatorCount rest ≤ terminatorCount (c :: rest) := by
  simp only [terminatorCount, List.filter_cons]
  split <;> simp

lemma terminatorCount_term (c : Char) (rest : List Char)
    (h : (c == '\r' || c == '\n' || c == '>') = true) :
    terminatorCount (c :: rest) = terminatorCount rest + 1 := by
  simp [terminatorCount, List.filter_cons, h]

lemma processBytes_bounded : ∀ (data buf : List Char),
    buf.length ≤ RX_BUFFER_SIZE - 1 →
    (processBytes data buf).1.length ≤ terminatorCount data ∧
      ∀ l ∈ (processBytes data buf).1, 0 < l.length ∧ l.length < RX_BUFFER_SIZE := by
  intro data
  induction data with
  | nil =>
    intro buf _
    simp [processBytes, terminatorCount]
  | cons c rest ih =>
    intro buf hbuf
    by_cases hfull : buf.length < RX_BUFFER_SIZE - 1
    · by_cases hcr : c = '\r'
      · subst hcr
        have htc := terminatorCount_term '\r' rest (by decide)
        rw [processBytes_cr rest buf hfull]
        by_cases hne : 0 < buf.length
        · rw [if_pos hne]
          have hrec := ih [] (by simp)
          refine ⟨?_, ?_⟩
          · show (buf :: (processBytes rest []).1).length ≤ _
            simp only [List.length_cons]
            omega
          · intro l hl
            rcases List.mem_cons.mp hl with rfl | hl
            · refine ⟨hne, ?_⟩
              simp only [RX_BUFFER_SIZE] at hfull ⊢
              omega
            · exact hrec.2 l hl
        · rw [if_neg hne]
          have hrec := ih buf hbuf
          exact ⟨by omega, hrec.2⟩
      · by_cases hlf : c = '\n'
        · subst hlf
          have htc := terminatorCount_term '\n' rest (by decide)
          rw [processBytes_lf rest buf hfull]
          have hrec := ih buf hbuf
          exact ⟨by omega, hrec.2⟩
        · by_cases hgt : c = '>'
          · subst hgt
            have htc := terminatorCount_term '>' rest (by decide)
            rw [processBytes_gt rest buf hfull]
            by_cases hne : 0 < buf.length
            · rw [if_pos hne]
              have hrec := ih [] (by simp)
              refine ⟨?_, ?_⟩
              · show (buf :: (processBytes rest []).1).length ≤ _
                simp only [List.length_cons]
                omega
              · intro l hl
                rcases List.mem_cons.mp hl with rfl | hl
                · refine ⟨hne, ?_⟩
                  simp only [RX_BUFFER_SIZE] at hfull ⊢
                  omega
                · exact hrec.2 l hl
            · rw [if_neg hne]
              have hrec := ih buf hbuf
              exact ⟨by omega, hrec.2⟩
          · have htc := terminatorCount_mono c rest
            rw [processBytes_other c rest buf hfull hcr hlf hgt]
            by_cases hpr : isPrintableAscii c = true
            · rw [if_pos hpr]
              have hrec := ih (buf ++ [c]) (by simp; omega)
              exact ⟨by omega, hrec.2⟩
            · rw [if_neg hpr]
              have hrec := ih buf hbuf
              exact ⟨by omega, hrec.2⟩
    · rw [processBytes_full c rest buf hfull]
      simp

def WFChunk (ch : List Char) : Prop :=
  ch ≠ [] ∧ ch.length ≤ RX_BUFFER_SIZE - 2 ∧
    ∀ c ∈ ch, isPrintableAscii c = true ∧ c ≠ '\r' ∧ c ≠ '\n' ∧ c ≠ '>'

def framedStream : List (List Char) → List Char
  | [] => []
  | ch :: chs => ch ++ '\r' :: framedStream chs

lemma terminatorCount_append (a b : List Char) :
    terminatorCount (a ++ b) = terminatorCount a + terminatorCount b := by
  simp [terminatorCount, List.filter_append]

lemma terminatorCount_nonterm (ch : List Char)
    (h : ∀ c ∈ ch, c ≠ '\r' ∧ c ≠ '\n' ∧ c ≠ '>') :
    terminatorCount ch = 0 := by
  simp only [terminatorCount, List.length_eq_zero]
  rw [List.filter_eq_nil_iff]
  intro a ha
  have ha2 := h a ha
  simp only [Bool.or_eq_true, beq_iff_eq]
  rintro ((hc | hc) | hc)
  · exact ha2.1 hc
  · exact ha2.2.1 hc
  · exact ha2.2.2 hc

lemma processBytes_chunk : ∀ (ch buf rest : List Char),
    (∀ c ∈ ch, isPrintableAscii c = true ∧ c ≠ '\r' ∧ c ≠ '\n' ∧ c ≠ '>') →
    buf.length + ch.length ≤ RX_BUFFER_SIZE - 1 →
    processBytes (ch ++ rest) buf = processBytes rest (buf ++ ch) := by
  intro ch
  induction ch with
  | nil =>
    intro buf rest _ _
    simp
  | cons c ch ih =>
    intro buf rest hall hlen
    have hc := hall c (by simp)
    have hfull : buf.length < RX_BUFFER_SIZE - 1 := by
      simp only [List.length_cons] at hlen
      omega
    rw [List.cons_append,
      processBytes_other c (ch ++ rest) buf hfull hc.2.1 hc.2.2.1 hc.2.2.2,
      if_pos hc.1,
      ih (buf ++ [c]) rest (fun d hd => hall d (by simp [hd]))
        (by simp only [List.length_append, List.length_cons, List.length_nil] at hlen ⊢; omega)]
    simp

lemma processBytes_framed : ∀ (chs : List (List Char)),
    (∀ ch ∈ chs, WFChunk ch) →
    processBytes (framedStream chs) [] = (chs, []) ∧
      terminatorCount (framedStream chs) = chs.length := by
  intro chs
  induction chs with
  | nil =>
    intro _
    exact ⟨rfl, rfl⟩
  | cons ch chs ih =>
    intro hall
    have hwf := hall ch (by simp)
    have hrec := ih (fun c hc => hall c (by simp [hc]))
    constructor
    · rw [framedStream,
        processBytes_chunk ch [] ('\r' :: framedStream chs) hwf.2.2
          (by have := hwf.2.1; simp only [List.length_nil, RX_BUFFER_SIZE] at *; omega)]
      simp only [List.nil_append]
      rw [processBytes_cr (framedStream chs) ch
          (by have := hwf.2.1; simp only [RX_BUFFER_SIZE] at *; omega),
        if_pos (List.length_pos.mpr hwf.1)]
      simp [hrec.1]
    · rw [framedStream, terminatorCount_append,
        terminatorCount_nonterm ch (fun c hc => (hwf.2.2 c hc).2),
        terminatorCount_term '\r' (framedStream chs) (by decide)]
      simp [hrec.2]

instance (ch : List Char) : Decidable (WFChunk ch) := by
  unfold WFChunk
  infer_instance

/-- C5 (amended): for all byte sequences, every emitted line is non-empty and
strictly shorter than `RX_BUFFER_SIZE`, and the number of emitted lines is at
most the number of terminator/prompt characters; the two counts coincide on
well-formed streams (non-empty printable chunks, each within the buffer bound,
each terminated by a single carriage return), where the framer reproduces the
chunks exactly.  Equality does not hold for arbitrary streams: a terminator
arriving on an empty buffer, or a line feed, flushes nothing
(`claim5_counterexample`). -/
theorem claim5_framer_amended :
    (∀ (data buf : List Char), buf.length ≤ RX_BUFFER_SIZE - 1 →
        (processBytes data buf).1.length ≤ terminatorCount data ∧
          ∀ l ∈ (processBytes data buf).1, 0 < l.length ∧ l.length < RX_BUFFER_SIZE) ∧
    (∀ chs : List (List Char), (∀ ch ∈ chs, WFChunk ch) →
        processBytes (framedStream chs) [] = (chs, []) ∧
          (processBytes (framedStream chs) []).1.length
            = terminatorCount (framedStream chs)) := by
  refine ⟨processBytes_bounded, fun chs h => ⟨(processBytes_framed chs h).1, ?_⟩⟩
  rw [(processBytes_framed chs h).1, (processBytes_framed chs h).2]

/-- Witness for `claim5_framer_amended`: the stream `"OK\r"` framed from an
empty buffer. -/
theorem claim5_framer_amended_witness :
    ((processBytes ['O', 'K', '\r'] []).1.length ≤ terminatorCount ['O', 'K', '\r'] ∧
        ∀ l ∈ (processBytes ['O', 'K', '\r'] []).1,
          0 < l.length ∧ l.length < RX_BUFFER_SIZE) ∧
      (processBytes (framedStream [['O', 'K']]) [] = ([['O', 'K']], []) ∧
        (processBytes (framedStream [['O', 'K']]) []).1.length
          = terminatorCount (framedStream [['O', 'K']])) :=
  ⟨claim5_framer_amended.1 ['O', 'K', '\r'] [] (by decide),
    claim5_framer_amended.2 [['O', 'K']] (by decide)⟩

/-! ## ECU connection verification (src/src/elm327.c, `verify_ecu_connection`,
lines 317-354) -/

/-- What one iteration of the `verify_ecu_connection` retry loop observes:
whether Bluetooth is still connected, whether the adapter is still
initialized, and whether `test_ecu_connectivity` succeeds. -/
structure VerifyProbe where
  bt_connected : Bool
  elm_initialized : Bool
  test_ok : Bool
deriving DecidableEq, Repr

/-- How an execution of `verify_ecu_connection` can end. -/
inductive VerifyResult where
  | abortedBtLoss
  | abortedElmLoss
  | ecuConnected
deriving DecidableEq, Repr

/-- Retry loop of `verify_ecu_connection` (elm327.c lines 325-353) run for at
most `fuel` attempts against the environment `env` (the probe observed at each
attempt), starting at attempt index `k`: the loop exits when Bluetooth drops,
when the adapter is deinitialized, or when the connectivity test succeeds;
otherwise it sleeps 2 s and retries.  `none` means the loop was still running
after `fuel` attempts. -/
def verifyFrom (env : Nat → VerifyProbe) : Nat → Nat → Option VerifyResult
  | _, 0 => none
  | k, fuel + 1 =>
    if (env k).bt_connected = false then some .abortedBtLoss
    else if (env k).elm_initialized = false then some .abortedElmLoss
    else if (env k).test_ok then some .ecuConnected
    else verifyFrom env (k + 1) fuel

/-- Function `verify_ecu_connection` under environment `env`, observed for
`fuel` attempts. -/
def verify_ecu_connection (env : Nat → VerifyProbe) (fuel : Nat) :
    Option VerifyResult :=
  verifyFrom env 0 fuel

/-- Exit condition of one loop iteration. -/
def verifyExitCond (p : VerifyProbe) : Prop :=
  p.bt_connected = false ∨ p.elm_initialized = false ∨ p.test_ok = true

instance (p : VerifyProbe) : Decidable (verifyExitCond p) := by
  unfold verifyExitCond
  infer_instance

/-- Environment in which the transport stays connected, the adapter stays
initialized, and the ECU probe always fails. -/
def envAllFail : Nat → VerifyProbe := fun _ => ⟨true, true, false⟩

lemma verifyFrom_envAllFail : ∀ (fuel k : Nat),
    verifyFrom envAllFail k fuel = none := by
  intro fuel
  induction fuel with
  | zero => intro k; rfl
  | succ n ih =>
    intro k
    simp only [verifyFrom, envAllFail]
    exact ih (k + 1)

/-- C6 counterexample: there is no attempt bound after which
`verify_ecu_connection` is guaranteed to have stopped — with the transport
connected, the adapter initialized and the probe failing forever, the loop
never exits, for any fuel. -/
theorem claim6_counterexample :
    ¬ ∃ B : Nat, ∀ env : Nat → VerifyProbe,
        (verify_ecu_connection env B).isSome = true := by
  rintro ⟨B, h⟩
  have h2 := h envAllFail
  rw [verify_ecu_connection, verifyFrom_envAllFail] at h2
  exact Bool.false_ne_true h2

lemma verifyFrom_isSome_iff : ∀ (fuel k : Nat) (env : Nat → VerifyProbe),
    (verifyFrom env k fuel).isSome = true ↔
      ∃ j < fuel, verifyExitCond (env (k + j)) := by
  intro fuel
  induction fuel with
  | zero =>
    intro k env
    simp [verifyFrom]
  | succ n ih =>
    intro k env
    by_cases hex : verifyExitCond (env k)
    · constructor
      · intro _
        exact ⟨0, Nat.succ_pos n, by simpa using hex⟩
      · intro _
        rw [verifyFrom]
        split_ifs with h1 h2 h3
        · rfl
        · rfl
        · rfl
        · unfold verifyExitCond at hex
          rcases hex with h | h | h
          · exact absurd h h1
          · exact absurd h h2
          · exact absurd h h3
    · have hex2 := hex
      unfold verifyExitCond at hex2
      have hbt : ¬ (env k).bt_connected = false := fun hc => hex2 (Or.inl hc)
      have helm : ¬ (env k).elm_initialized = false :=
        fun hc => hex2 (Or.inr (Or.inl hc))
      have htest : ¬ (env k).test_ok = true :=
        fun hc => hex2 (Or.inr (Or.inr hc))
      rw [verifyFrom, if_neg hbt, if_neg helm,
        if_neg (by simpa using htest), ih (k + 1) env]
      constructor
      · rintro ⟨j, hj, hcond⟩
        refine ⟨j + 1, by omega, ?_⟩
        rwa [show k + (j + 1) = k + 1 + j by omega]
      · rintro ⟨j, hj, hcond⟩
        match j with
        | 0 => exact absurd (by simpa using hcond) hex
        | j + 1 =>
          refine ⟨j, by omega, ?_⟩
          rwa [show k + 1 + j = k + (j + 1) by omega]

/-- C6 (amended): the `verify_ecu_connection` retry loop has no attempt
bound; it stops within `fuel` attempts exactly when some attempt before `fuel`
observes an exit condition — Bluetooth lost, adapter deinitialized, or probe
success.  While the transport stays connected, the adapter stays initialized
and the probe keeps failing, it retries forever. -/
theorem claim6_verify_unbounded (env : Nat → VerifyProbe) (fuel : Nat) :
    (verify_ecu_connection env fuel).isSome = true ↔
      ∃ j < fuel, verifyExitCond (env j) := by
  rw [verify_ecu_connection, verifyFrom_isSome_iff]
  constructor
  · rintro ⟨j, hj, h⟩
    exact ⟨j, hj, by simpa using h⟩
  · rintro ⟨j, hj, h⟩
    exact ⟨j, hj, by simpa using h⟩

/-! ## Command send guards (src/src/elm327.c lines 63-104,
src/src/bluetooth.c lines 507-517) -/

/-- ESP-IDF error codes observed in the embedded paths. -/
inductive EspErr where
  | espOk
  | espFail
  | espErrInvalidState
deriving DecidableEq, Repr

/-- Transport-side state read by `ble_uart_write`: the connection flag and the
discovered write-endpoint handle (`tx_char_handle`, 0 = unset). -/
structure BleLinkState where
  is_connected : Bool
  tx_char_handle : Nat
deriving DecidableEq, Repr

/-- Function `ble_uart_write` (bluetooth.c lines 507-517): if not connected or
the TX characteristic is unset it fails with `ESP_FAIL` and transmits nothing;
otherwise it hands the bytes to `esp_ble_gattc_write_char` (modelled as
accepting the write).  The returned list holds the payloads actually passed to
the platform write call. -/
def ble_uart_write (s : BleLinkState) (data : List Char) :
    EspErr × List (List Char) :=
  if s.is_connected = false || s.tx_char_handle = 0 then (.espFail, [])
  else (.espOk, [data])

/-- Session-engine state read and written by
`elm327_send_command_with_options`: the link state plus the `elm_ready`
prompt-pacing flag (elm327.c line 31). -/
structure ElmSendState where
  link : BleLinkState
  elm_ready : Bool
deriving DecidableEq, Repr

/-- Function `elm327_send_command_with_options` (elm327.c lines 63-104): when
not connected or the write endpoint is unset it returns
`ESP_ERR_INVALID_STATE` at once, transmitting nothing and leaving all state
unchanged.  Otherwise it (optionally) waits for the prompt flag, clears it,
formats `cmd` with a trailing carriage return and sends it through
`ble_uart_write`.  The `snprintf` truncation to 32 bytes is not modelled: every
command this firmware sends is at most 10 characters. -/
def elm327_send_command_with_options (s : ElmSendState) (cmd : String)
    (wait_for_prompt : Bool) : EspErr × ElmSendState × List (List Char) :=
  if s.link.is_connected = false || s.link.tx_char_handle = 0 then
    (.espErrInvalidState, s, [])
  else
    let s1 := if wait_for_prompt then { s with elm_ready := false } else s
    let w := ble_uart_write s1.link (cmd.data ++ ['\r'])
    (w.1, s1, w.2)

/-- C7: with the transport disconnected or the write endpoint unset, both
`ble_uart_write` and `elm327_send_command_with_options` fail immediately with
a not-ready error, transmit nothing, and change no state — the command is
never queued. -/
theorem claim7_not_ready_send (s : ElmSendState) (b : BleLinkState)
    (cmd : String) (wait_for_prompt : Bool) (data : List Char)
    (hs : s.link.is_connected = false ∨ s.link.tx_char_handle = 0)
    (hb : b.is_connected = false ∨ b.tx_char_handle = 0) :
    elm327_send_command_with_options s cmd wait_for_prompt
        = (.espErrInvalidState, s, []) ∧
      ble_uart_write b data = (.espFail, []) := by
  constructor
  · rw [elm327_send_command_with_options, if_pos]
    rcases hs with h | h <;> simp [h]
  · rw [ble_uart_write, if_pos]
    rcases hb with h | h <;> simp [h]

/-- Witness for `claim7_not_ready_send`: a disconnected link with a set handle
and a connected link with an unset handle. -/
theorem claim7_not_ready_send_witness :
    elm327_send_command_with_options ⟨⟨false, 42⟩, true⟩ "010C" true
        = (.espErrInvalidState, ⟨⟨false, 42⟩, true⟩, []) ∧
      ble_uart_write ⟨true, 0⟩ ['A', 'T', 'Z', '\r'] = (.espFail, []) :=
  claim7_not_ready_send ⟨⟨false, 42⟩, true⟩ ⟨true, 0⟩ "010C" true
    ['A', 'T', 'Z', '\r'] (Or.inl rfl) (Or.inr rfl)

/-! ## Steady-state polling commands (src/src/obd_data.c, `obd_task`,
lines 414-475) -/

/-- Command chosen by one iteration of the steady-state polling loop
(obd_data.c lines 414-475): in individual-PID (PerPid) mode the `switch` on
`phase % 3` picks `010C`, `0111`, `010D`; in multi-PID (Combined) mode the
`switch` on `phase` picks `010C11` (phase 0) or `010D` (phase 1), `cmd`
remaining `NULL` for any other phase value (the loop keeps `phase` below 2
via `phase = (phase + 1) % 2`). -/
def pollCommand (use_individual_pids : Bool) (phase : Nat) : Option String :=
  if use_individual_pids then
    match phase % 3 with
    | 0 => some "010C"
    | 1 => some "0111"
    | 2 => some "010D"
    | _ => none
  else
    match phase with
    | 0 => some "010C11"
    | 1 => some "010D"
    | _ => none

/-- C8 counterexample: in Combined (multi-PID) mode the scheduler never sends
the single all-three-PIDs command `010C110D`; phase 0 sends `010C11` (RPM and
throttle only) and phase 1 sends `010D`. -/
theorem claim8_counterexample :
    pollCommand false 0 = some "010C11" ∧
      pollCommand false 1 = some "010D" ∧
      pollCommand false 0 ≠ some "010C110D" ∧
      pollCommand false 1 ≠ some "010C110D" := by
  refine ⟨rfl, rfl, by decide, by decide⟩

/-- C8 (amended): in Combined mode the steady-state loop is a two-phase cycle
— the combined command `010C11` (RPM and throttle in one request) at phase 0,
then `010D` (speed) at phase 1 — and in PerPid mode it cycles through the
three individual-PID commands `010C`, `0111`, `010D`. -/
theorem claim8_poll_commands (phase : Nat) :
    pollCommand false (phase % 2)
        = some (if phase % 2 = 0 then "010C11" else "010D") ∧
      pollCommand true phase
        = some (if phase % 3 = 0 then "010C"
                else if phase % 3 = 1 then "0111" else "010D") := by
  constructor
  · have h2 : phase % 2 < 2 := Nat.mod_lt _ (by norm_num)
    have h2' : phase % 2 = 0 ∨ phase % 2 = 1 := by omega
    rcases h2' with h | h <;> rw [h] <;> rfl
  · have h3 : phase % 3 < 3 := Nat.mod_lt _ (by norm_num)
    simp only [pollCommand, if_pos rfl]
    match hm : phase % 3 with
    | 0 => rfl
    | 1 => rfl
    | 2 => rfl
    | m + 3 => omega

/-! ## Staleness sweep (src/src/obd_data.c, `check_and_reset_stale_data`,
lines 40-71) -/

/-- FreeRTOS `pdMS_TO_TICKS` for a tick rate of `hz` ticks per second:
`ms * hz / 1000` in integer arithmetic. -/
def pdMS_TO_TICKS (hz ms : Nat) : Nat := ms * hz / 1000

/-- Subtraction of two `TickType_t` (`uint32_t`) tick counts,
`(now - before) mod 2 ^ 32`, for operands below `2 ^ 32`. -/
def tickSub (now before : Nat) : Nat := (now + 2 ^ 32 - before) % 2 ^ 32

/-- Telemetry snapshot together with the per-field last-update tick counts
(obd_data.c lines 32-34). -/
structure TelemetryState where
  data : vehicle_data_t
  rpm_last_update : Nat
  throttle_last_update : Nat
  speed_last_update : Nat
deriving Repr, DecidableEq

/-- Function `check_and_reset_stale_data` (obd_data.c lines 40-71) at tick
count `now` under tick rate `hz`: the timeout is `pdMS_TO_TICKS(1000)` when
polling individual PIDs and `pdMS_TO_TICKS(600)` in multi-PID mode; each field
whose age exceeds the timeout is zeroed (the inner `!= 0` test only skips a
redundant store). -/
def check_and_reset_stale_data (hz now : Nat) (using_individual_pids : Bool)
    (s : TelemetryState) : TelemetryState :=
  let timeout := if using_individual_pids then pdMS_TO_TICKS hz 1000
                 else pdMS_TO_TICKS hz 600
  { s with data :=
      { rpm :=
          if timeout < tickSub now s.rpm_last_update then
            if s.data.rpm ≠ 0 then 0 else s.data.rpm
          else s.data.rpm,
        throttle_position :=
          if timeout < tickSub now s.throttle_last_update then
            if s.data.throttle_position ≠ 0 then 0 else s.data.throttle_position
          else s.data.throttle_position,
        vehicle_speed :=
          if timeout < tickSub now s.speed_last_update then
            if s.data.vehicle_speed ≠ 0 then 0 else s.data.vehicle_speed
          else s.data.vehicle_speed } }

/-- Wrap-free case of `TickType_t` subtraction: when the timestamp is not in
the future and the age fits in 32 bits, the modular difference is the plain
difference. -/
lemma tickSub_eq (now before : Nat) (h1 : before ≤ now)
    (h2 : now - before < 2 ^ 32) : tickSub now before = now - before := by
  unfold tickSub
  have h3 : now + 2 ^ 32 - before = (now - before) + 2 ^ 32 := by omega
  rw [h3, Nat.add_mod_right, Nat.mod_eq_of_lt h2]

/-- Mode-dependent timeouts of the staleness sweep: the individual-PID (PerPid)
timeout of 1000 ms is strictly longer than the multi-PID (Combined) timeout of
600 ms at every positive tick rate. -/
lemma staleness_timeout_lt (hz : Nat) (hhz : 1 ≤ hz) :
    pdMS_TO_TICKS hz 600 < pdMS_TO_TICKS hz 1000 := by
  unfold pdMS_TO_TICKS
  have h1 : 1000 * hz / 1000 = hz := by
    rw [Nat.mul_div_cancel_left _ (by norm_num)]
  have h2 : 600 * hz / 1000 < hz := by
    rw [Nat.div_lt_iff_lt_mul (by norm_num)]
    omega
  omega

/-- C9: the staleness sweep zeroes exactly the telemetry fields whose age
exceeds the mode-dependent timeout, leaves fresh fields (and all timestamps)
unchanged, and the PerPid timeout is strictly longer than the Combined one. -/
theorem claim9_staleness (hz now : Nat) (b : Bool) (s : TelemetryState)
    (hhz : 1 ≤ hz)
    (h1 : s.rpm_last_update ≤ now) (h1w : now - s.rpm_last_update < 2 ^ 32)
    (h2 : s.throttle_last_update ≤ now)
    (h2w : now - s.throttle_last_update < 2 ^ 32)
    (h3 : s.speed_last_update ≤ now) (h3w : now - s.speed_last_update < 2 ^ 32) :
    ((check_and_reset_stale_data hz now b s).data.rpm
        = if (if b then pdMS_TO_TICKS hz 1000 else pdMS_TO_TICKS hz 600)
              < now - s.rpm_last_update
            then 0 else s.data.rpm) ∧
      ((check_and_reset_stale_data hz now b s).data.throttle_position
        = if (if b then pdMS_TO_TICKS hz 1000 else pdMS_TO_TICKS hz 600)
              < now - s.throttle_last_update
            then 0 else s.data.throttle_position) ∧
      ((check_and_reset_stale_data hz now b s).data.vehicle_speed
        = if (if b then pdMS_TO_TICKS hz 1000 else pdMS_TO_TICKS hz 600)
              < now - s.speed_last_update
            then 0 else s.data.vehicle_speed) ∧
      (check_and_reset_stale_data hz now b s).rpm_last_update
        = s.rpm_last_update ∧
      (check_and_reset_stale_data hz now b s).throttle_last_update
        = s.throttle_last_update ∧
      (check_and_reset_stale_data hz now b s).speed_last_update
        = s.speed_last_update ∧
      pdMS_TO_TICKS hz 600 < pdMS_TO_TICKS hz 1000 := by
  have hrpm := tickSub_eq now s.rpm_last_update h1 h1w
  have hthr := tickSub_eq now s.throttle_last_update h2 h2w
  have hspd := tickSub_eq now s.speed_last_update h3 h3w
  refine ⟨?_, ?_, ?_, rfl, rfl, rfl, staleness_timeout_lt hz hhz⟩ <;>
    (simp only [check_and_reset_stale_data, hrpm, hthr, hspd]
     split_ifs <;> omega)

/-- Witness for `claim9_staleness`: at 100 Hz in Combined mode (timeout
60 ticks), an RPM sample 100 ticks old is zeroed while a fresh speed sample is
kept. -/
theorem claim9_staleness_witness :
    (check_and_reset_stale_data 100 1000 false
        ⟨⟨500, 50, 60⟩, 900, 500, 1000⟩).data.rpm = 0 ∧
      (check_and_reset_stale_data 100 1000 false
        ⟨⟨500, 50, 60⟩, 900, 500, 1000⟩).data.vehicle_speed = 60 := by
  have h := claim9_staleness 100 1000 false ⟨⟨500, 50, 60⟩, 900, 500, 1000⟩
    (by decide) (by decide) (by decide) (by decide) (by decide)
    (by decide) (by decide)
  refine ⟨?_, ?_⟩
  · rw [h.1]
    decide
  · rw [h.2.2.1]
    decide

/-! ## Nitrous control outputs (src/src/gpio_control.c, `update_nos_system`
lines 257-292 and `toggle_auto_injection_mode` lines 298-308) -/

/-- Relay output levels and mode flags owned by src/src/gpio_control.c:
`nos_ready` is the level driven on `NOS_READY_RELAY`, `nos_auto_injection`
the level on `NOS_AUTO_INJ_RELAY` (via `set_nos_ready` /
`set_nos_auto_injection`), plus the `auto_injection_mode` and
`nos_conditions_met` flags. -/
structure NosState where
  nos_ready : Bool
  nos_auto_injection : Bool
  auto_injection_mode : Bool
  nos_conditions_met : Bool
deriving Repr, DecidableEq

/-- NOS activation condition (gpio_control.c line 270):
speed > 20, RPM > 3000, throttle > 40. -/
def nosConditions (rpm throttle speed : Nat) : Bool :=
  decide (20 < speed) && decide (3000 < rpm) && decide (40 < throttle)

/-- Function `update_nos_system` (gpio_control.c lines 257-292): when the
transport or the ECU is disconnected, the ready relay is driven off, the
auto-injection relay is driven off only if the mode flag is set (otherwise it
is left untouched), and the conditions flag is cleared.  When both are
connected, the ready relay tracks the conditions and the auto-injection relay
tracks them only in auto mode. -/
def update_nos_system (is_connected ecu_connected : Bool)
    (rpm throttle speed : Nat) (s : NosState) : NosState :=
  if is_connected = false || ecu_connected = false then
    { s with nos_ready := false,
             nos_auto_injection :=
               if s.auto_injection_mode then false else s.nos_auto_injection,
             nos_conditions_met := false }
  else
    { s with nos_ready := nosConditions rpm throttle speed,
             nos_auto_injection :=
               if s.auto_injection_mode then nosConditions rpm throttle speed
               else false,
             nos_conditions_met := nosConditions rpm throttle speed }

/-- Function `toggle_auto_injection_mode` (gpio_control.c lines 298-308):
flips the mode flag and, when the new mode is off, immediately drives the
auto-injection relay off. -/
def toggle_auto_injection_mode (s : NosState) : NosState :=
  if s.auto_injection_mode then
    { s with auto_injection_mode := false, nos_auto_injection := false }
  else { s with auto_injection_mode := true }

/-- C10: under the invariant that the auto-injection relay is off whenever the
mode flag is off (established at boot and preserved by both `update_nos_system`
and `toggle_auto_injection_mode`), an update asserts the ready relay exactly
when transport and ECU are connected and speed > 20 ∧ rpm > 3000 ∧
throttle > 40; the auto-injection relay additionally requires the mode flag;
and with transport or ECU disconnected both outputs are off after the update. -/
theorem claim10_nos_outputs (is_connected ecu_connected : Bool)
    (rpm throttle speed : Nat) (s : NosState)
    (hinv : s.auto_injection_mode = false → s.nos_auto_injection = false) :
    ((update_nos_system is_connected ecu_connected rpm throttle speed s).nos_ready
        = (is_connected && ecu_connected && nosConditions rpm throttle speed)) ∧
      ((update_nos_system is_connected ecu_connected rpm throttle speed
          s).nos_auto_injection
        = (is_connected && ecu_connected && s.auto_injection_mode &&
            nosConditions rpm throttle speed)) ∧
      ((is_connected = false ∨ ecu_connected = false) →
        (update_nos_system is_connected ecu_connected rpm throttle speed
              s).nos_ready = false ∧
          (update_nos_system is_connected ecu_connected rpm throttle speed
              s).nos_auto_injection = false) ∧
      ((update_nos_system is_connected ecu_connected rpm throttle speed
              s).auto_injection_mode = false →
        (update_nos_system is_connected ecu_connected rpm throttle speed
            s).nos_auto_injection = false) ∧
      ((toggle_auto_injection_mode s).auto_injection_mode = false →
        (toggle_auto_injection_mode s).nos_auto_injection = false) := by
  cases is_connected <;> cases ecu_connected <;>
    rcases hm : s.auto_injection_mode with _ | _ <;>
    simp_all [update_nos_system, toggle_auto_injection_mode]

/-- Witness for `claim10_nos_outputs`: connected system, auto mode off and
relay off, telemetry meeting all three thresholds. -/
theorem claim10_nos_outputs_witness :
    ((update_nos_system true true 3500 50 30
          ⟨false, false, false, false⟩).nos_ready
        = (true && true && nosConditions 3500 50 30)) ∧
      ((update_nos_system true true 3500 50 30
          ⟨false, false, false, false⟩).nos_auto_injection
        = (true && true && false && nosConditions 3500 50 30)) ∧
      ((true = false ∨ true = false) →
        (update_nos_system true true 3500 50 30
              ⟨false, false, false, false⟩).nos_ready = false ∧
          (update_nos_system true true 3500 50 30
              ⟨false, false, false, false⟩).nos_auto_injection = false) ∧
      ((update_nos_system true true 3500 50 30
              ⟨false, false, false, false⟩).auto_injection_mode = false →
        (update_nos_system true true 3500 50 30
            ⟨false, false, false, false⟩).nos_auto_injection = false) ∧
      ((toggle_auto_injection_mode
              ⟨false, false, false, false⟩).auto_injection_mode = false →
        (toggle_auto_injection_mode
            ⟨false, false, false, false⟩).nos_auto_injection = false) :=
  claim10_nos_outputs true true 3500 50 30 ⟨false, false, false, false⟩
    (fun _ => rfl)
